import Mathlib

/-!
Verification development for the bc-app 3D asset pipeline.

The definitions below are a shallow embedding of the asset-loading and
render-loop code in `src/components/3d/CastlesGroup.tsx` and
`src/components/3d/ModelScene.tsx`.  Machine floating-point numbers are
modelled by an arbitrary linear ordered field `α`; the ambient JavaScript
`Math` object (its constant `PI` and the primitives `sin`/`cos`) is passed
explicitly as a `JsMath α` record.  Asynchronous fetches that can fail
(`ExpoTHREE.loadTextureAsync`, `ExpoTHREE.loadAsync`) are modelled by
oracle functions returning `Option` results; a thrown exception is `none`.
-/

namespace BCApp

/-- Ambient JavaScript math primitives: `Math.PI`, `Math.sin`, `Math.cos`. -/
structure JsMath (α : Type) where
  pi : α
  sin : α → α
  cos : α → α

/-- Color space of a three.js texture (`THREE.NoColorSpace`,
`THREE.SRGBColorSpace`, `THREE.LinearSRGBColorSpace`). -/
inductive ColorSpace where
  | noColorSpace
  | srgb
  | linearSRGB
deriving DecidableEq, Repr

/-- Texture wrapping mode (`THREE.RepeatWrapping` etc.). -/
inductive WrapMode where
  | repeatWrapping
  | clampToEdge
  | mirroredRepeat
deriving DecidableEq, Repr

/-- Texture filtering mode (`THREE.LinearFilter`,
`THREE.LinearMipmapLinearFilter`, `THREE.NearestFilter`). -/
inductive FilterMode where
  | linearFilter
  | linearMipmapLinearFilter
  | nearestFilter
deriving DecidableEq, Repr

/-- The mutable settings of a `THREE.Texture` touched by
`loadTextureOptimized`. -/
structure Texture where
  colorSpace : ColorSpace
  wrapS : WrapMode
  wrapT : WrapMode
  minFilter : FilterMode
  magFilter : FilterMode
  generateMipmaps : Bool
  anisotropy : Nat
  flipY : Bool
deriving DecidableEq, Repr

/-- Geometry of a mesh: the procedural fallback uses `THREE.BoxGeometry`
and `THREE.ConeGeometry`; meshes that come from a GLB asset carry opaque
geometry identified by an id. -/
inductive Geometry (α : Type) where
  | box (w h d : α)
  | cone (radius height : α) (radialSegments : Nat)
  | asset (id : Nat)
deriving DecidableEq, Repr

/-- Material of a mesh: the material embedded in the GLB file, the
`THREE.MeshLambertMaterial` used by the fallback, or the
`THREE.MeshStandardMaterial` built by `applyTexturesToMesh` (with its
three texture channels and the scalar `metalness`/`roughness` values). -/
inductive Material (α : Type) where
  | embedded (id : Nat)
  | lambert (color : Nat)
  | standardPBR (normalMap colorMap metalRoughMap : Texture)
      (metalness roughness : α)
deriving DecidableEq, Repr

/-- A renderable mesh: geometry, whether the geometry exposes a `uv`
attribute, its current material, and its local vertical offset. -/
structure Mesh (α : Type) where
  geometry : Geometry α
  hasUV : Bool
  material : Material α
  posY : α
deriving DecidableEq, Repr

/-- A 3-component vector (`THREE.Vector3`, `THREE.Euler`). -/
structure Vec3 (α : Type) where
  x : α
  y : α
  z : α
deriving DecidableEq, Repr

/-- A `THREE.Group`: transform plus the meshes found in its subtree.
`scale` is a single scalar because the code only ever calls
`scale.setScalar`. -/
structure Group (α : Type) where
  position : Vec3 α
  rotation : Vec3 α
  scale : α
  meshes : List (Mesh α)
deriving DecidableEq, Repr

variable {α : Type} [LinearOrderedField α]

/-- A freshly constructed `new THREE.Group()`: identity transform. -/
def Group.new : Group α :=
  { position := ⟨0, 0, 0⟩, rotation := ⟨0, 0, 0⟩, scale := 1, meshes := [] }

/-! ## Texture Loader (`loadTextureOptimized`, CastlesGroup.tsx lines 49-83) -/

/-- The field updates `loadTextureOptimized` performs on a successfully
fetched texture: the per-role color space (index 0 = normal map, Linear;
index 1 = base color, sRGB; index 2 = metallic/roughness, Linear; any
other index leaves the color space as fetched), then the common settings
including `flipY = false`. -/
def configureTexture (t : Texture) (index : Nat) : Texture :=
  let t1 :=
    if index = 0 then { t with colorSpace := ColorSpace.noColorSpace }
    else if index = 1 then { t with colorSpace := ColorSpace.srgb }
    else if index = 2 then { t with colorSpace := ColorSpace.noColorSpace }
    else t
  { t1 with
    wrapS := WrapMode.repeatWrapping
    wrapT := WrapMode.repeatWrapping
    minFilter := FilterMode.linearMipmapLinearFilter
    magFilter := FilterMode.linearFilter
    generateMipmaps := true
    anisotropy := 4
    flipY := false }

/-- `loadTextureOptimized(textureResource, index)`: awaits
`ExpoTHREE.loadTextureAsync` (the oracle `fetchTex`, keyed by the
resource handle), configures the result, and returns `null` (`none`) if
the fetch throws. -/
def loadTextureOptimized (fetchTex : Nat → Option Texture)
    (textureResource index : Nat) : Option Texture :=
  match fetchTex textureResource with
  | some t => some (configureTexture t index)
  | none => none

/-! ## Material application (`applyTexturesToMesh`, lines 92-164) -/

/-- `applyTexturesToMesh(mesh, textures, meshIndex)`: if the geometry has
no `uv` attribute the mesh is left untouched (warning only); if fewer
than 3 textures are available the mesh is left untouched (warning only);
otherwise the mesh's material is replaced by a fresh
`MeshStandardMaterial` with `normalMap := textures[0]`,
`map := textures[1]`, `metalnessMap = roughnessMap := textures[2]`,
`metalness = 0.0`, `roughness = 1.0`. -/
def applyTexturesToMesh (mesh : Mesh α) (textures : List Texture) : Mesh α :=
  if ¬ mesh.hasUV then mesh
  else
    match textures with
    | t0 :: t1 :: t2 :: _ =>
        { mesh with material := Material.standardPBR t0 t1 t2 0 1 }
    | _ => mesh

/-! ## Manifest (`assets/models/index.ts` and lines 266-281) -/

/-- One raw manifest record as seen by the filter
`item && item.model && item.textures`: either field may be absent
(falsy), in which case the record is dropped. -/
structure ManifestEntry where
  model : Option Nat
  textures : Option (List Nat)
deriving DecidableEq, Repr

/-- A validated manifest record (`CastleData` in the source): a model
resource handle plus the ordered texture resource handles. -/
structure CastleData where
  model : Nat
  textures : List Nat
deriving DecidableEq, Repr

/-- The shape of the statically imported `modelsManifest` module object:
either it is itself an array (of possibly-null records), or it is a
non-array object whose `default` property may or may not hold such an
array. -/
inductive ManifestModule where
  | arr (items : List (Option ManifestEntry))
  | obj (defaultField : Option (List (Option ManifestEntry)))
deriving DecidableEq, Repr

/-- Whether `Array.isArray(modelsManifest)` holds. -/
def ManifestModule.isArr : ManifestModule → Bool
  | .arr _ => true
  | .obj _ => false

/-- `Array.isArray(m) ? m : (m?.default || [])`. -/
def resolveManifest : ManifestModule → List (Option ManifestEntry)
  | .arr items => items
  | .obj (some items) => items
  | .obj none => []

/-- The truthiness filter `item && item.model && item.textures` applied
to one record. -/
def toCastleData : Option ManifestEntry → Option CastleData
  | some e =>
      match e.model, e.textures with
      | some m, some ts => some ⟨m, ts⟩
      | _, _ => none
  | none => none

/-- `data.filter(item => item && item.model && item.textures)`: the
validated manifest entries, in order. -/
def validEntries (mm : ManifestModule) : List CastleData :=
  (resolveManifest mm).filterMap toCastleData

/-! ## Model Loader (`loadSingleCastle`, lines 169-225) -/

/-- Step 1 of `loadSingleCastle` (lines 177-182): load every declared
texture at its position in the texture list and keep the successful
subset (`.filter(Boolean)`), in order. -/
def loadedTexturesOf (fetchTex : Nat → Option Texture)
    (castleData : CastleData) : List Texture :=
  (castleData.textures.enum.map
    (fun p => loadTextureOptimized fetchTex p.2 p.1)).filterMap id

/-- `loadSingleCastle(castleData, ...)`. Oracles: `fetchTex h = none`
when `ExpoTHREE.loadTextureAsync` throws for resource handle `h`;
`fetchModel h = none` when `ExpoTHREE.loadAsync` throws for model handle
`h`, `some none` when it resolves but `!gltf || !gltf.scene`, and
`some (some meshes)` when `gltf.scene` traverses to `meshes`.  Steps:
load every declared texture (keeping the successful subset), fail when
no texture succeeded, fail when the model fetch throws or lacks a scene,
otherwise apply the textures to every mesh and wrap the scene in a fresh
group. -/
def loadSingleCastle (fetchTex : Nat → Option Texture)
    (fetchModel : Nat → Option (Option (List (Mesh α))))
    (castleData : CastleData) : Option (Group α) :=
  let loadedTextures := loadedTexturesOf fetchTex castleData
  if loadedTextures.length = 0 then none
  else
    match fetchModel castleData.model with
    | none => none
    | some none => none
    | some (some meshes) =>
        some { Group.new with
                meshes := meshes.map (fun m => applyTexturesToMesh m loadedTextures) }

/-! ## Fallback geometry (`createFallbackCastle`, lines 230-253) -/

/-- The fixed fallback color palette (magenta, cyan, yellow). -/
def fallbackColors : List Nat := [0xff00ff, 0x00ffff, 0xffff00]

/-- `createFallbackCastle(castleIndex)`: a box body at `y = 1.5` colored
by `colors[castleIndex % colors.length]` and a red cone roof at `y = 4`,
in a fresh group. -/
def createFallbackCastle (castleIndex : Nat) : Group α :=
  { Group.new with
    meshes :=
      [ { geometry := Geometry.box 2 3 2
          hasUV := true
          material := Material.lambert
            (fallbackColors.getD (castleIndex % fallbackColors.length) 0)
          posY := 1.5 },
        { geometry := Geometry.cone 1.5 2 4
          hasUV := true
          material := Material.lambert 0xff6b6b
          posY := 4 } ] }

/-! ## Scene Assembler (`loadCastlesGroup`, lines 258-321) -/

/-- The slot lookup `positions[i] || positions[0]` over the fixed table
`[(-30,0,0), (0,0,0), (30,0,0)]`: any index beyond the table falls back
to the first slot. -/
def slotPosition (i : Nat) : Vec3 α :=
  if i = 0 then ⟨-30, 0, 0⟩
  else if i = 1 then ⟨0, 0, 0⟩
  else if i = 2 then ⟨30, 0, 0⟩
  else ⟨-30, 0, 0⟩

/-- The uniform scale applied to every castle (`const scale = 22`). -/
def castleScale : α := 22

/-- The sequential load loop (lines 286-296): castle `i` is the result of
`loadSingleCastle` when it succeeds and `createFallbackCastle i`
otherwise.  The `Nat` argument is the index of the first list element. -/
def buildGroups (fetchTex : Nat → Option Texture)
    (fetchModel : Nat → Option (Option (List (Mesh α)))) :
    Nat → List CastleData → List (Group α)
  | _, [] => []
  | i, cd :: rest =>
      (match loadSingleCastle fetchTex fetchModel cd with
       | some c => c
       | none => createFallbackCastle i) ::
      buildGroups fetchTex fetchModel (i + 1) rest

/-- The positioning loop (lines 308-314): castle `i` gets
`position := positions[i] || positions[0]` and `scale.setScalar(22)`.
The `Nat` argument is the index of the first list element. -/
def positionGroups : Nat → List (Group α) → List (Group α)
  | _, [] => []
  | i, g :: rest =>
      { g with position := slotPosition i, scale := castleScale } ::
      positionGroups (i + 1) rest

/-- `loadCastlesGroup(scene)`: resolve and filter the manifest; when no
valid entry remains, warn and return the empty array leaving the scene
untouched; otherwise load each entry sequentially (substituting the
fallback), position and scale every group, add each to the scene, and
return the groups.  The result is the returned array paired with the
scene contents after the call. -/
def loadCastlesGroup (fetchTex : Nat → Option Texture)
    (fetchModel : Nat → Option (Option (List (Mesh α))))
    (mm : ManifestModule) (scene : List (Group α)) :
    List (Group α) × List (Group α) :=
  let manifest := validEntries mm
  if manifest.length = 0 then ([], scene)
  else
    let castleGroups := buildGroups fetchTex fetchModel 0 manifest
    let positioned := positionGroups 0 castleGroups
    (positioned, scene ++ positioned)

/-! ## Animation Driver (`animateCastles`, CastlesGroup.tsx lines 323-336) -/

/-- The per-castle body of `animateCastles`: with
`floatSpeed = 0.4`, `floatHeight = 2.5`, `offset = index * 2.0`, write
`position.y = sin(time * floatSpeed + offset) * floatHeight`,
`rotation.z = sin(time * 0.15 + offset) * 0.02` and
`rotation.x = cos(time * 0.18 + offset * 0.5) * 0.015`; every other
field is untouched. -/
def animateCastle (math : JsMath α) (time : α) (index : Nat)
    (castle : Group α) : Group α :=
  let floatSpeed : α := 0.4
  let floatHeight : α := 2.5
  let offset : α := (index : α) * 2.0
  { castle with
    position :=
      { castle.position with
        y := math.sin (time * floatSpeed + offset) * floatHeight }
    rotation :=
      { castle.rotation with
        z := math.sin (time * 0.15 + offset) * 0.02
        x := math.cos (time * 0.18 + offset * 0.5) * 0.015 } }

/-- The `castles.forEach((castle, index) => ...)` traversal, carrying the
running index. -/
def animateCastlesAux (math : JsMath α) (time : α) :
    Nat → List (Group α) → List (Group α)
  | _, [] => []
  | i, c :: cs => animateCastle math time i c :: animateCastlesAux math time (i + 1) cs

/-- `animateCastles(castles, time)`: the per-frame animation function as
declared in the source (two parameters). -/
def animateCastles (math : JsMath α) (castles : List (Group α)) (time : α) :
    List (Group α) :=
  animateCastlesAux math time 0 castles

/-- The call site `animateCastles(castles, t, castleRotationsRef.current)`
in ModelScene.tsx line 288: JavaScript silently drops the extra third
argument, so the per-castle accumulated tap rotations never reach the
animation function. -/
def animateCastlesCall (math : JsMath α) (castles : List (Group α)) (time : α)
    (castleRotations : List α) : List (Group α) :=
  animateCastles math castles time

/-! ## Camera Controller (ModelScene.tsx lines 18-100, 255-285) -/

/-- Camera control limits (lines 19-22). -/
def CAMERA_MIN_DISTANCE : α := 35

/-- Upper zoom limit. -/
def CAMERA_MAX_DISTANCE : α := 80

/-- Default orbit distance. -/
def CAMERA_DEFAULT_DISTANCE : α := 50

/-- The mutable camera refs of `ModelScene`: current and target orbit
distance, current and target rotation (`x` is pitch, `y` is yaw), and
the pinch reference distance `touchStartDistanceRef`. -/
structure CameraState (α : Type) where
  distance : α
  targetDistance : α
  rotX : α
  rotY : α
  targetRotX : α
  targetRotY : α
  touchStart : α
deriving DecidableEq, Repr

/-- The initial ref values: distance 50 (current and target), rotation
`(0,0)` (current and target), touch reference 0. -/
def initCamera : CameraState α :=
  { distance := CAMERA_DEFAULT_DISTANCE
    targetDistance := CAMERA_DEFAULT_DISTANCE
    rotX := 0, rotY := 0, targetRotX := 0, targetRotY := 0
    touchStart := 0 }

/-- `updateCameraRotation(deltaX, deltaY)` (lines 78-88): accumulate the
drag deltas scaled by 0.01 into the target rotation, then clamp the
vertical component to `[-Math.PI/2.5, Math.PI/2.5]`. -/
def updateCameraRotation (math : JsMath α) (deltaX deltaY : α)
    (s : CameraState α) : CameraState α :=
  let y := s.targetRotY + deltaX * 0.01
  let x := s.targetRotX - deltaY * 0.01
  { s with
    targetRotY := y
    targetRotX := max (-(math.pi / 2.5)) (min (math.pi / 2.5) x) }

/-- `updateCameraZoom(scale)` (lines 90-96): divide the pinch reference
distance by the gesture scale and clamp to
`[CAMERA_MIN_DISTANCE, CAMERA_MAX_DISTANCE]`. -/
def updateCameraZoom (scale : α) (s : CameraState α) : CameraState α :=
  let newDistance := s.touchStart / scale
  { s with
    targetDistance := max CAMERA_MIN_DISTANCE (min CAMERA_MAX_DISTANCE newDistance) }

/-- `saveTouchStartDistance()` (lines 98-100), run at pinch start. -/
def saveTouchStartDistance (s : CameraState α) : CameraState α :=
  { s with touchStart := s.distance }

/-- `resetCamera()` (lines 71-75): restore the default targets. -/
def resetCamera (s : CameraState α) : CameraState α :=
  { s with
    targetDistance := CAMERA_DEFAULT_DISTANCE
    targetRotX := 0
    targetRotY := 0 }

/-- The per-frame smoothing step (lines 264-275): exponentially
interpolate the current distance and rotation toward their targets with
`lerpFactor = 0.15`. -/
def cameraFrameStep (s : CameraState α) : CameraState α :=
  let lerpFactor : α := 0.15
  { s with
    distance := s.distance + (s.targetDistance - s.distance) * lerpFactor
    rotX := s.rotX + (s.targetRotX - s.rotX) * lerpFactor
    rotY := s.rotY + (s.targetRotY - s.rotY) * lerpFactor }

/-- One camera-affecting event: a pan update, a pinch start, a pinch
update, a camera reset, or one animation-frame smoothing step. -/
inductive CamOp (α : Type) where
  | pan (deltaX deltaY : α)
  | pinchStart
  | pinchUpdate (scale : α)
  | reset
  | frame
deriving Repr

/-- Apply one camera event to the camera state. -/
def applyCamOp (math : JsMath α) : CamOp α → CameraState α → CameraState α
  | .pan dx dy, s => updateCameraRotation math dx dy s
  | .pinchStart, s => saveTouchStartDistance s
  | .pinchUpdate sc, s => updateCameraZoom sc s
  | .reset, s => resetCamera s
  | .frame, s => cameraFrameStep s

/-- Run a finite sequence of camera events from a starting state. -/
def runCamOps (math : JsMath α) (ops : List (CamOp α)) (s : CameraState α) :
    CameraState α :=
  ops.foldl (fun st op => applyCamOp math op st) s

/-! ## Tap gesture (ModelScene.tsx lines 103-109 and 140-157) -/

/-- The band computation in `tapGesture.onEnd` (lines 145-153):
`tapX < width/3` is the left band 0, `tapX < 2*width/3` the middle
band 1, anything else the right band 2. -/
def tapBand (tapX screenWidth : α) : Int :=
  if tapX < screenWidth / 3 then 0
  else if tapX < 2 * screenWidth / 3 then 1
  else 2

/-- `rotateCastle(castleIndex)` (lines 103-109): when
`0 ≤ castleIndex < 3`, add `Math.PI / 4` to that castle's accumulated
rotation; otherwise do nothing. -/
def rotateCastle (math : JsMath α) (castleIndex : Int)
    (castleRotations : List α) : List α :=
  if 0 ≤ castleIndex ∧ castleIndex < 3 then
    castleRotations.set castleIndex.toNat
      (castleRotations.getD castleIndex.toNat 0 + math.pi / 4)
  else castleRotations

/-- The whole tap handler: map the horizontal tap position to a band and
feed it to `rotateCastle`. -/
def tapGestureEnd (math : JsMath α) (tapX screenWidth : α)
    (castleRotations : List α) : List α :=
  rotateCastle math (tapBand tapX screenWidth) castleRotations

/-! ## Concrete fixtures used by witnesses and counterexamples -/

/-- A concrete rational `JsMath` instance for evaluation: `pi` is the
rational approximation 355/113 (any nonzero value serves), `sin` and
`cos` are the constant-zero functions. -/
def mathQ : JsMath ℚ := ⟨355 / 113, fun _ => 0, fun _ => 0⟩

/-- A raw texture as returned by the fetch, before configuration. -/
def rawTex : Texture :=
  { colorSpace := ColorSpace.linearSRGB
    wrapS := WrapMode.clampToEdge
    wrapT := WrapMode.clampToEdge
    minFilter := FilterMode.linearFilter
    magFilter := FilterMode.linearFilter
    generateMipmaps := false
    anisotropy := 1
    flipY := true }

/-- A texture fetch oracle that always succeeds with `rawTex`. -/
def fetchTexAll : Nat → Option Texture := fun _ => some rawTex

/-- A texture fetch oracle that always throws. -/
def fetchTexNone : Nat → Option Texture := fun _ => none

/-- A model fetch oracle that always throws. -/
def fetchModelNone : Nat → Option (Option (List (Mesh ℚ))) := fun _ => none

/-- A mesh coming out of a GLB scene, on its embedded material. -/
def meshW : Mesh ℚ :=
  { geometry := Geometry.asset 0, hasUV := true
    material := Material.embedded 0, posY := 0 }

/-- A model fetch oracle that always resolves to a scene holding the
single mesh `meshW`. -/
def fetchModelW : Nat → Option (Option (List (Mesh ℚ))) :=
  fun _ => some (some [meshW])

/-- A well-formed manifest record. -/
def entryW : Option ManifestEntry := some ⟨some 0, some [0, 1, 2]⟩

/-- A three-entry array manifest. -/
def mmW3 : ManifestModule := ManifestModule.arr [entryW, entryW, entryW]

/-- A four-entry array manifest. -/
def mmW4 : ManifestModule := ManifestModule.arr [entryW, entryW, entryW, entryW]

/-- A non-array manifest module whose `default` field holds one valid
record. -/
def mmObj : ManifestModule := ManifestModule.obj (some [entryW])

/-! ## Helper lemmas -/

theorem length_animateCastlesAux (math : JsMath α) (time : α) :
    ∀ (i : Nat) (cs : List (Group α)),
      (animateCastlesAux math time i cs).length = cs.length := by
  intro i cs
  induction cs generalizing i with
  | nil => rfl
  | cons c cs ih => simp [animateCastlesAux, ih]

theorem get?_animateCastlesAux (math : JsMath α) (time : α) :
    ∀ (i j : Nat) (cs : List (Group α)),
      (animateCastlesAux math time i cs).get? j =
        (cs.get? j).map (fun c => animateCastle math time (i + j) c) := by
  intro i j cs
  induction cs generalizing i j with
  | nil => simp [animateCastlesAux]
  | cons c cs ih =>
    cases j with
    | zero => simp [animateCastlesAux]
    | succ j =>
      simp only [animateCastlesAux, List.get?]
      rw [ih (i + 1) j]
      have : i + 1 + j = i + (j + 1) := by omega
      rw [this]

theorem animateCastle_idem (math : JsMath α) (time : α) (i : Nat)
    (c : Group α) :
    animateCastle math time i (animateCastle math time i c) =
      animateCastle math time i c := rfl

theorem animateCastlesAux_idem (math : JsMath α) (time : α) :
    ∀ (i : Nat) (cs : List (Group α)),
      animateCastlesAux math time i (animateCastlesAux math time i cs) =
        animateCastlesAux math time i cs := by
  intro i cs
  induction cs generalizing i with
  | nil => rfl
  | cons c cs ih =>
    simp only [animateCastlesAux]
    exact congrArg (animateCastle math time i c :: ·) (ih (i + 1))

/-! ## Claim theorems -/

/-- Claim C7: every texture that loads successfully with role index 0 or
2 comes back with Linear color space (`THREE.NoColorSpace`), role index
1 with sRGB color space, and every role with `flipY = false`. -/
theorem C7_texture_colorspace_flipY (fetchTex : Nat → Option Texture)
    (handle index : Nat) (t : Texture) (hfetch : fetchTex handle = some t) :
    loadTextureOptimized fetchTex handle index = some (configureTexture t index) ∧
    (index = 0 ∨ index = 2 →
      (configureTexture t index).colorSpace = ColorSpace.noColorSpace) ∧
    (index = 1 → (configureTexture t index).colorSpace = ColorSpace.srgb) ∧
    (configureTexture t index).flipY = false := by
  refine ⟨by simp [loadTextureOptimized, hfetch], ?_, ?_, rfl⟩
  · rintro (rfl | rfl) <;> rfl
  · rintro rfl; rfl

/-- Claim C7 witness: the theorem applied to a concrete successful fetch
at role index 1. -/
theorem C7_texture_colorspace_flipY_witness :
    fetchTexAll 9 = some rawTex ∧
    (loadTextureOptimized fetchTexAll 9 1 = some (configureTexture rawTex 1) ∧
      (1 = 0 ∨ 1 = 2 →
        (configureTexture rawTex 1).colorSpace = ColorSpace.noColorSpace) ∧
      ((1 : Nat) = 1 → (configureTexture rawTex 1).colorSpace = ColorSpace.srgb) ∧
      (configureTexture rawTex 1).flipY = false) :=
  ⟨rfl, C7_texture_colorspace_flipY fetchTexAll 9 1 rawTex rfl⟩

/-- Claim C8: the per-frame animation function is a pure function of its
inputs (determinism is definitional in the embedding) and repeating the
call with the same elapsed time leaves the transforms unchanged:
`animateCastles` is idempotent. -/
theorem C8_animate_idempotent (math : JsMath α) (castles : List (Group α))
    (time : α) :
    animateCastles math (animateCastles math castles time) time =
      animateCastles math castles time :=
  animateCastlesAux_idem math time 0 castles

/-- Claim C10: on every frame the animation step writes only
`position.y`, `rotation.x` and `rotation.z`: the group count,
`position.x`, `position.z`, `rotation.y`, the uniform scale, and the
mesh children of every group are unchanged. -/
theorem C10_animation_preserves_placement (math : JsMath α)
    (castles : List (Group α)) (time : α) (i : Nat) (g : Group α)
    (h : castles.get? i = some g) :
    (animateCastles math castles time).length = castles.length ∧
    ∃ g', (animateCastles math castles time).get? i = some g' ∧
      g'.position.x = g.position.x ∧
      g'.position.z = g.position.z ∧
      g'.rotation.y = g.rotation.y ∧
      g'.scale = g.scale ∧
      g'.meshes = g.meshes := by
  refine ⟨length_animateCastlesAux math time 0 castles, ?_⟩
  refine ⟨animateCastle math time i g, ?_, rfl, rfl, rfl, rfl, rfl⟩
  rw [animateCastles, get?_animateCastlesAux, h]
  simp

/-- Claim C10 witness: the theorem applied to a concrete one-element
castle list. -/
theorem C10_animation_preserves_placement_witness :
    ([createFallbackCastle 0] : List (Group ℚ)).get? 0 =
      some (createFallbackCastle 0) ∧
    ((animateCastles mathQ [createFallbackCastle 0] 1).length =
        ([createFallbackCastle 0] : List (Group ℚ)).length ∧
      ∃ g', (animateCastles mathQ [createFallbackCastle 0] 1).get? 0 = some g' ∧
        g'.position.x = (createFallbackCastle 0 : Group ℚ).position.x ∧
        g'.position.z = (createFallbackCastle 0 : Group ℚ).position.z ∧
        g'.rotation.y = (createFallbackCastle 0 : Group ℚ).rotation.y ∧
        g'.scale = (createFallbackCastle 0 : Group ℚ).scale ∧
        g'.meshes = (createFallbackCastle 0 : Group ℚ).meshes) :=
  ⟨rfl, C10_animation_preserves_placement mathQ [createFallbackCastle 0] 1 0
    (createFallbackCastle 0) rfl⟩

/-- Claim C5 (code bug evaluation): at the failing input — one castle
whose `rotation.y` is 0, elapsed time 1, accumulated tap rotation
`π/4` after one tap — the animation call leaves `rotation.y` at 0 even
though the accumulated rotation π/4 is nonzero: `animateCastles` never
writes `rotation.y` and the third argument passed at the call site is
dropped. -/
theorem C5_rotation_y_never_written :
    (animateCastlesCall mathQ [Group.new] 1 [mathQ.pi / 4]).map
        (fun g => g.rotation.y) = [0] ∧
    mathQ.pi / 4 ≠ 0 := by
  refine ⟨rfl, ?_⟩
  norm_num [mathQ]

/-! ## Camera invariant (C2) -/

/-- The invariant claimed for camera state: both the target and the
interpolated current distance lie in
`[CAMERA_MIN_DISTANCE, CAMERA_MAX_DISTANCE]` and both the target and the
current pitch lie in `[-π/2.5, π/2.5]`. -/
def camInv (math : JsMath α) (s : CameraState α) : Prop :=
  CAMERA_MIN_DISTANCE ≤ s.distance ∧ s.distance ≤ CAMERA_MAX_DISTANCE ∧
  CAMERA_MIN_DISTANCE ≤ s.targetDistance ∧ s.targetDistance ≤ CAMERA_MAX_DISTANCE ∧
  -(math.pi / 2.5) ≤ s.rotX ∧ s.rotX ≤ math.pi / 2.5 ∧
  -(math.pi / 2.5) ≤ s.targetRotX ∧ s.targetRotX ≤ math.pi / 2.5

theorem camInv_applyCamOp (math : JsMath α) (hpi : 0 ≤ math.pi)
    (op : CamOp α) (s : CameraState α) (hs : camInv math s) :
    camInv math (applyCamOp math op s) := by
  have hL : (0 : α) ≤ math.pi / 2.5 := by
    apply div_nonneg hpi; norm_num
  obtain ⟨h1, h2, h3, h4, h5, h6, h7, h8⟩ := hs
  cases op with
  | pan dx dy =>
    refine ⟨h1, h2, h3, h4, h5, h6, le_max_left _ _, ?_⟩
    exact max_le (by linarith) (min_le_left _ _)
  | pinchStart =>
    exact ⟨h1, h2, h3, h4, h5, h6, h7, h8⟩
  | pinchUpdate sc =>
    refine ⟨h1, h2, ?_, ?_, h5, h6, h7, h8⟩
    · exact le_max_left _ _
    · refine max_le ?_ (min_le_left _ _)
      simp only [CAMERA_MIN_DISTANCE, CAMERA_MAX_DISTANCE]
      norm_num
  | reset =>
    dsimp only [applyCamOp, resetCamera]
    refine ⟨h1, h2, ?_, ?_, h5, h6, by linarith, hL⟩ <;>
      · dsimp only [CAMERA_MIN_DISTANCE, CAMERA_MAX_DISTANCE,
          CAMERA_DEFAULT_DISTANCE]
        norm_num
  | frame =>
    simp only [applyCamOp, cameraFrameStep, camInv] at *
    refine ⟨by linarith, by linarith, h3, h4, by linarith, by linarith, h7, h8⟩

theorem camInv_runCamOps (math : JsMath α) (hpi : 0 ≤ math.pi) :
    ∀ (ops : List (CamOp α)) (s : CameraState α), camInv math s →
      camInv math (runCamOps math ops s) := by
  intro ops
  induction ops with
  | nil => intro s hs; exact hs
  | cons op ops ih =>
    intro s hs
    exact ih _ (camInv_applyCamOp math hpi op s hs)

/-- Claim C2: starting from the default camera state (distance 50,
rotation `(0,0)`), after any finite sequence of pan updates, pinch
starts, pinch updates, camera resets, and per-frame exponential
smoothing steps (factor 0.15), both the target and the current distance
stay within `[35, 80]` and both the target and the current pitch stay
within `[-π/2.5, π/2.5]`. -/
theorem C2_camera_invariant (math : JsMath α) (hpi : 0 < math.pi)
    (ops : List (CamOp α)) :
    camInv math (runCamOps math ops initCamera) := by
  apply camInv_runCamOps math (le_of_lt hpi)
  have hL : (0 : α) ≤ math.pi / 2.5 := by
    apply div_nonneg (le_of_lt hpi); norm_num
  dsimp only [camInv, initCamera]
  refine ⟨?_, ?_, ?_, ?_, by linarith, hL, by linarith, hL⟩ <;>
    · dsimp only [CAMERA_MIN_DISTANCE, CAMERA_MAX_DISTANCE,
        CAMERA_DEFAULT_DISTANCE]
      norm_num

/-- Claim C2 witness: the theorem applied to a concrete event sequence
over the rational math instance. -/
theorem C2_camera_invariant_witness :
    0 < mathQ.pi ∧
    camInv mathQ (runCamOps mathQ
      [CamOp.pan 1 2, CamOp.pinchStart, CamOp.pinchUpdate 2, CamOp.frame,
        CamOp.reset, CamOp.frame] initCamera) :=
  ⟨by norm_num [mathQ], C2_camera_invariant mathQ (by norm_num [mathQ]) _⟩

/-! ## Tap gesture (C3) -/

/-- Claim C3 counterexample: a tap at `x = 10` on a 300-wide screen hits
band 0 and increments castle 0's accumulated rotation by `π/4` — an
eighth of a turn — not by a quarter turn (`π/2`). -/
theorem C3_counterexample :
    tapBand (10 : ℚ) 300 = 0 ∧
    tapGestureEnd mathQ 10 300 [0, 0, 0] = [0 + mathQ.pi / 4, 0, 0] ∧
    tapGestureEnd mathQ 10 300 [0, 0, 0] ≠ [0 + mathQ.pi / 2, 0, 0] := by
  have hb : tapBand (10 : ℚ) 300 = 0 := by
    unfold tapBand
    rw [if_pos (by norm_num : (10 : ℚ) < 300 / 3)]
  have he : tapGestureEnd mathQ 10 300 [0, 0, 0] = [0 + mathQ.pi / 4, 0, 0] := by
    unfold tapGestureEnd
    rw [hb]
    unfold rotateCastle
    rw [if_pos (by decide : (0 : Int) ≤ 0 ∧ (0 : Int) < 3)]
    rfl
  refine ⟨hb, he, ?_⟩
  rw [he]
  simp only [ne_eq, List.cons.injEq, and_true]
  norm_num [mathQ]

/-- Claim C3 (amended): every tap maps to one of the three equal
screen-width bands `k ∈ {0,1,2}`, increments exactly item `k`'s
accumulated rotation by exactly `π/4` (an eighth of a turn), leaves the
other items unchanged, and `rotateCastle` ignores indices outside
`{0,1,2}` without any state change. -/
theorem C3_tap_band_eighth_turn (math : JsMath α) (x w : α) (rots : List α)
    (hlen : rots.length = 3) :
    0 ≤ tapBand x w ∧ tapBand x w < 3 ∧
    (tapGestureEnd math x w rots).getD (tapBand x w).toNat 0 =
      rots.getD (tapBand x w).toNat 0 + math.pi / 4 ∧
    (∀ j : Nat, j ≠ (tapBand x w).toNat →
      (tapGestureEnd math x w rots).getD j 0 = rots.getD j 0) ∧
    (∀ i : Int, ¬ (0 ≤ i ∧ i < 3) → rotateCastle math i rots = rots) := by
  obtain ⟨a, b, c, rfl⟩ := List.length_eq_three.mp hlen
  have hout : ∀ i : Int, ¬ (0 ≤ i ∧ i < 3) →
      rotateCastle math i [a, b, c] = [a, b, c] := by
    intro i hi
    simp only [rotateCastle, if_neg hi]
  have hband : tapBand x w = 0 ∨ tapBand x w = 1 ∨ tapBand x w = 2 := by
    unfold tapBand
    split_ifs <;> simp
  rcases hband with hb | hb | hb <;>
    refine ⟨by rw [hb]; try norm_num, by rw [hb]; try norm_num, ?_, ?_, hout⟩ <;>
    simp only [tapGestureEnd, hb]
  · rfl
  · intro j hj
    match j, hj with
    | 0, hj => exact absurd rfl hj
    | 1, _ => rfl
    | 2, _ => rfl
    | n + 3, _ => rfl
  · rfl
  · intro j hj
    match j, hj with
    | 0, _ => rfl
    | 1, hj => exact absurd rfl hj
    | 2, _ => rfl
    | n + 3, _ => rfl
  · rfl
  · intro j hj
    match j, hj with
    | 0, _ => rfl
    | 1, _ => rfl
    | 2, hj => exact absurd rfl hj
    | n + 3, _ => rfl

/-- Claim C3 witness: the amended theorem applied to a concrete tap in
the middle band. -/
theorem C3_tap_band_eighth_turn_witness :
    ([0, 0, 0] : List ℚ).length = 3 ∧
    (0 ≤ tapBand (150 : ℚ) 300 ∧ tapBand (150 : ℚ) 300 < 3 ∧
      (tapGestureEnd mathQ 150 300 [0, 0, 0]).getD
          (tapBand (150 : ℚ) 300).toNat 0 =
        ([0, 0, 0] : List ℚ).getD (tapBand (150 : ℚ) 300).toNat 0 +
          mathQ.pi / 4 ∧
      (∀ j : Nat, j ≠ (tapBand (150 : ℚ) 300).toNat →
        (tapGestureEnd mathQ 150 300 [0, 0, 0]).getD j 0 =
          ([0, 0, 0] : List ℚ).getD j 0) ∧
      (∀ i : Int, ¬ (0 ≤ i ∧ i < 3) →
        rotateCastle mathQ i [0, 0, 0] = [0, 0, 0])) :=
  ⟨rfl, C3_tap_band_eighth_turn mathQ 150 300 [0, 0, 0] rfl⟩

/-! ## Loader indexing lemmas -/

theorem length_positionGroups :
    ∀ (i : Nat) (gs : List (Group α)), (positionGroups i gs).length = gs.length := by
  intro i gs
  induction gs generalizing i with
  | nil => rfl
  | cons g gs ih => simp [positionGroups, ih]

theorem length_buildGroups (ft : Nat → Option Texture)
    (fm : Nat → Option (Option (List (Mesh α)))) :
    ∀ (i : Nat) (l : List CastleData), (buildGroups ft fm i l).length = l.length := by
  intro i l
  induction l generalizing i with
  | nil => rfl
  | cons cd l ih => simp [buildGroups, ih]

theorem get?_positionGroups :
    ∀ (i j : Nat) (gs : List (Group α)),
      (positionGroups i gs).get? j = (gs.get? j).map
        (fun g => { g with position := slotPosition (i + j), scale := castleScale }) := by
  intro i j gs
  induction gs generalizing i j with
  | nil => simp [positionGroups]
  | cons g gs ih =>
    cases j with
    | zero => simp [positionGroups]
    | succ j =>
      simp only [positionGroups, List.get?]
      rw [ih (i + 1) j]
      have : i + 1 + j = i + (j + 1) := by omega
      rw [this]

theorem get?_buildGroups (ft : Nat → Option Texture)
    (fm : Nat → Option (Option (List (Mesh α)))) :
    ∀ (i j : Nat) (l : List CastleData),
      (buildGroups ft fm i l).get? j = (l.get? j).map
        (fun cd =>
          match loadSingleCastle ft fm cd with
          | some c => c
          | none => createFallbackCastle (i + j)) := by
  intro i j l
  induction l generalizing i j with
  | nil => simp [buildGroups]
  | cons cd l ih =>
    cases j with
    | zero => simp [buildGroups]
    | succ j =>
      simp only [buildGroups, List.get?]
      rw [ih (i + 1) j]
      have : i + 1 + j = i + (j + 1) := by omega
      rw [this]

theorem length_loadCastlesGroup (ft : Nat → Option Texture)
    (fm : Nat → Option (Option (List (Mesh α))))
    (mm : ManifestModule) (scene : List (Group α)) :
    ((loadCastlesGroup ft fm mm scene).1).length = (validEntries mm).length := by
  by_cases h : (validEntries mm).length = 0
  · simp [loadCastlesGroup, h]
  · simp [loadCastlesGroup, h, length_positionGroups, length_buildGroups]

theorem get?_loadCastlesGroup (ft : Nat → Option Texture)
    (fm : Nat → Option (Option (List (Mesh α))))
    (mm : ManifestModule) (scene : List (Group α)) (j : Nat) :
    ((loadCastlesGroup ft fm mm scene).1).get? j =
      ((validEntries mm).get? j).map
        (fun cd =>
          { (match loadSingleCastle ft fm cd with
             | some c => c
             | none => createFallbackCastle j) with
            position := slotPosition j, scale := castleScale }) := by
  by_cases h : (validEntries mm).length = 0
  · have hnil : validEntries mm = [] := List.length_eq_zero.mp h
    simp [loadCastlesGroup, h, hnil]
  · simp only [loadCastlesGroup, if_neg h]
    rw [get?_positionGroups, get?_buildGroups, Option.map_map]
    cases hv : (validEntries mm).get? j <;> simp

/-! ## Fallback substitution (C1) -/

/-- Claim C1: for every manifest entry whose scene-graph load fails
(`loadSingleCastle` returns no result) the procedural fallback is
substituted at that index, the failure never escapes (the loader is a
total function), and the returned group count and the world position and
scale assigned at index `i` are identical whatever the per-index load
outcomes are. -/
theorem C1_fallback_position_invariant
    (ft₁ ft₂ : Nat → Option Texture)
    (fm₁ fm₂ : Nat → Option (Option (List (Mesh α))))
    (mm : ManifestModule) (scene₁ scene₂ : List (Group α)) (i : Nat) :
    ((loadCastlesGroup ft₁ fm₁ mm scene₁).1).length =
      ((loadCastlesGroup ft₂ fm₂ mm scene₂).1).length ∧
    (((loadCastlesGroup ft₁ fm₁ mm scene₁).1).get? i).map
        (fun g => (g.position, g.scale)) =
      (((loadCastlesGroup ft₂ fm₂ mm scene₂).1).get? i).map
        (fun g => (g.position, g.scale)) ∧
    (∀ cd, (validEntries mm).get? i = some cd →
      loadSingleCastle ft₁ fm₁ cd = none →
      (((loadCastlesGroup ft₁ fm₁ mm scene₁).1).get? i).map (fun g => g.meshes) =
        some ((createFallbackCastle i : Group α).meshes)) := by
  refine ⟨?_, ?_, ?_⟩
  · rw [length_loadCastlesGroup, length_loadCastlesGroup]
  · rw [get?_loadCastlesGroup, get?_loadCastlesGroup]
    cases hv : (validEntries mm).get? i <;> simp
  · intro cd hcd hload
    rw [get?_loadCastlesGroup, hcd]
    simp [hload]

/-- Claim C1 witness: a three-entry manifest where every load fails on
the left and every load succeeds on the right; index 0 carries the
fallback meshes on the failing side, and count, position and scale
agree across the two outcomes. -/
theorem C1_fallback_position_invariant_witness :
    (validEntries mmW3).get? 0 = some ⟨0, [0, 1, 2]⟩ ∧
    loadSingleCastle fetchTexNone fetchModelNone ⟨0, [0, 1, 2]⟩ =
      (none : Option (Group ℚ)) ∧
    ((loadCastlesGroup fetchTexNone fetchModelNone mmW3 []).1).length =
      ((loadCastlesGroup fetchTexAll fetchModelW mmW3 []).1).length ∧
    (((loadCastlesGroup fetchTexNone fetchModelNone mmW3 []).1).get? 0).map
        (fun g => (g.position, g.scale)) =
      (((loadCastlesGroup fetchTexAll fetchModelW mmW3 []).1).get? 0).map
        (fun g => (g.position, g.scale)) ∧
    (((loadCastlesGroup fetchTexNone fetchModelNone mmW3 []).1).get? 0).map
        (fun g => g.meshes) =
      some ((createFallbackCastle 0 : Group ℚ).meshes) :=
  ⟨rfl, rfl,
    (C1_fallback_position_invariant fetchTexNone fetchTexAll fetchModelNone
      fetchModelW mmW3 [] [] 0).1,
    (C1_fallback_position_invariant fetchTexNone fetchTexAll fetchModelNone
      fetchModelW mmW3 [] [] 0).2.1,
    (C1_fallback_position_invariant fetchTexNone fetchTexAll fetchModelNone
      fetchModelW mmW3 [] [] 0).2.2 ⟨0, [0, 1, 2]⟩ rfl rfl⟩

/-! ## Slot positions (C4) -/

/-- Claim C4 counterexample: for the three-model manifest the first
group sits at `(-30, 0, 0)`, not at the claimed `(-25, 0, 0)`; and for a
four-entry manifest the fourth group also sits at the first slot
`(-30, 0, 0)` rather than at a centered-spacing position. -/
theorem C4_positions_counterexample :
    (((loadCastlesGroup fetchTexNone fetchModelNone mmW3 []).1).get? 0).map
        (fun g => g.position) = some ⟨-30, 0, 0⟩ ∧
    ((⟨-30, 0, 0⟩ : Vec3 ℚ) ≠ ⟨-25, 0, 0⟩) ∧
    (((loadCastlesGroup fetchTexNone fetchModelNone mmW4 []).1).get? 3).map
        (fun g => g.position) = some ⟨-30, 0, 0⟩ := by
  refine ⟨rfl, ?_, rfl⟩
  simp only [ne_eq, Vec3.mk.injEq, not_and]
  intro h
  norm_num at h

/-- Claim C4 (amended): every returned group `i` is placed at the fixed
slot position for index `i` from the table
`[(-30,0,0), (0,0,0), (30,0,0)]` with the fixed uniform scale 22; for
`i ≥ 3` the slot lookup falls back to the first slot `(-30,0,0)`. -/
theorem C4_slot_positions (ft : Nat → Option Texture)
    (fm : Nat → Option (Option (List (Mesh α))))
    (mm : ManifestModule) (scene : List (Group α)) (i : Nat) (g : Group α)
    (h : ((loadCastlesGroup ft fm mm scene).1).get? i = some g) :
    g.position = slotPosition i ∧ g.scale = castleScale := by
  rw [get?_loadCastlesGroup] at h
  cases hv : (validEntries mm).get? i with
  | none => rw [hv] at h; simp at h
  | some cd =>
    rw [hv, Option.map_some'] at h
    injection h with h
    rw [← h]
    exact ⟨rfl, rfl⟩

/-- The concrete group produced at index 1 of the all-fail load of the
three-entry manifest. -/
def gW1 : Group ℚ :=
  { createFallbackCastle 1 with position := slotPosition 1, scale := castleScale }

/-- Claim C4 witness: the amended theorem applied at index 1 of a
concrete manifest. -/
theorem C4_slot_positions_witness :
    ((loadCastlesGroup fetchTexNone fetchModelNone mmW3 []).1).get? 1 =
      some gW1 ∧
    (gW1.position = slotPosition 1 ∧ gW1.scale = castleScale) :=
  ⟨rfl, C4_slot_positions fetchTexNone fetchModelNone mmW3 [] 1 gW1 rfl⟩

/-! ## Incomplete texture sets (C6) -/

/-- With fewer than three loaded textures, `applyTexturesToMesh` leaves
the mesh untouched (this is the skipped texturing step). -/
theorem applyTexturesToMesh_short (m : Mesh α) (ts : List Texture)
    (h : ts.length < 3) : applyTexturesToMesh m ts = m := by
  match ts, h with
  | [], _ => unfold applyTexturesToMesh; split_ifs <;> rfl
  | [t0], _ => unfold applyTexturesToMesh; split_ifs <;> rfl
  | [t0, t1], _ => unfold applyTexturesToMesh; split_ifs <;> rfl
  | t0 :: t1 :: t2 :: rest, h => simp at h; omega

/-- Claim C6 counterexample: when all three texture fetches fail (zero
successful textures) but the model itself is loadable, `loadSingleCastle`
returns no result — the model load fails instead of proceeding with the
geometry. -/
theorem C6_zero_textures_counterexample :
    (loadedTexturesOf fetchTexNone ⟨0, [0, 1, 2]⟩).length = 0 ∧
    fetchModelW 0 = some (some [meshW]) ∧
    loadSingleCastle fetchTexNone fetchModelW ⟨0, [0, 1, 2]⟩ = none :=
  ⟨rfl, rfl, rfl⟩

/-- Claim C6 (amended): when at least one but fewer than three textures
load successfully and the scene-graph load succeeds, the model load
still succeeds; the texturing step is skipped, leaving every mesh on its
embedded (or default) material. -/
theorem C6_incomplete_textures (ft : Nat → Option Texture)
    (fm : Nat → Option (Option (List (Mesh α)))) (cd : CastleData)
    (meshes : List (Mesh α))
    (h0 : (loadedTexturesOf ft cd).length ≠ 0)
    (h3 : (loadedTexturesOf ft cd).length < 3)
    (hm : fm cd.model = some (some meshes)) :
    loadSingleCastle ft fm cd = some { Group.new with meshes := meshes } := by
  simp only [loadSingleCastle, if_neg h0, hm]
  have hmap : ∀ m ∈ meshes, applyTexturesToMesh m (loadedTexturesOf ft cd) = m :=
    fun m _ => applyTexturesToMesh_short m _ h3
  rw [List.map_congr_left hmap, List.map_id']

/-- A texture fetch oracle where only the first resource succeeds. -/
def fetchTexOne : Nat → Option Texture :=
  fun h => if h = 0 then some rawTex else none

/-- Claim C6 witness: the amended theorem applied to a concrete load
where one of three textures succeeds. -/
theorem C6_incomplete_textures_witness :
    (loadedTexturesOf fetchTexOne ⟨5, [0, 1, 2]⟩).length ≠ 0 ∧
    (loadedTexturesOf fetchTexOne ⟨5, [0, 1, 2]⟩).length < 3 ∧
    fetchModelW 5 = some (some [meshW]) ∧
    loadSingleCastle fetchTexOne fetchModelW ⟨5, [0, 1, 2]⟩ =
      some { Group.new with meshes := [meshW] } :=
  ⟨by decide, by decide, rfl,
    C6_incomplete_textures fetchTexOne fetchModelW ⟨5, [0, 1, 2]⟩ [meshW]
      (by decide) (by decide) rfl⟩

/-! ## Manifest degradation (C9) -/

/-- Claim C9 counterexample: a manifest module that is not an array but
whose `default` field holds one valid entry is loaded normally — the
result has one group, not zero — so "not an array" alone does not make
`loadCastlesGroup` return the empty set. -/
theorem C9_nonarray_counterexample :
    mmObj.isArr = false ∧
    ((loadCastlesGroup fetchTexNone fetchModelNone mmObj []).1).length = 1 :=
  ⟨rfl, rfl⟩

/-- Claim C9 (amended): whenever the resolved manifest list contains no
entry carrying both a `model` and a `textures` field — in particular
when the module is neither an array nor an object with a `default`
array of valid entries — `loadCastlesGroup` returns the empty array,
throws no exception (it is total), and leaves the scene unchanged. -/
theorem C9_empty_manifest (ft : Nat → Option Texture)
    (fm : Nat → Option (Option (List (Mesh α)))) (mm : ManifestModule)
    (scene : List (Group α))
    (h : ∀ e ∈ resolveManifest mm, toCastleData e = none) :
    loadCastlesGroup ft fm mm scene = ([], scene) := by
  have hv : validEntries mm = [] := List.filterMap_eq_nil_iff.mpr h
  simp [loadCastlesGroup, hv]

/-- Claim C9 witness: the amended theorem applied to a module object
with no `default` field. -/
theorem C9_empty_manifest_witness :
    (∀ e ∈ resolveManifest (ManifestModule.obj none), toCastleData e = none) ∧
    loadCastlesGroup fetchTexNone fetchModelNone (ManifestModule.obj none)
      ([] : List (Group ℚ)) = ([], []) :=
  ⟨by simp [resolveManifest],
    C9_empty_manifest fetchTexNone fetchModelNone (ManifestModule.obj none) []
      (by simp [resolveManifest])⟩

end BCApp
